import Mathlib

/-!
Shallow embedding of the upload authorization and provenance pipeline of
`server/tushandlers.go` (plugin-fileuploader), together with proofs of the
behavioural properties claimed of it.

Conventions of the embedding:
* Go maps from string to string are represented as association lists with
  unique keys (`Metadata`), with `metaGet` returning the zero value `""`
  for a missing key exactly as a Go map read does, and `metaSet` replacing
  an existing binding or appending a new one, as a Go map write does.
  The reserved-key scans of the Go code iterate over the map; their result
  is independent of iteration order, so they are embedded as key searches.
* The metadata codec (`parseMeta` / `serializeMeta`) is repository code
  that lives outside the embedded file. Modelled from the spec: encoding
  is a left inverse of decoding (`decode(encode(m)) == m`), so a request
  carries its Upload-Metadata header as the decoded `Metadata` value, and
  `req.Header.Set(serializeMeta(m))` is embedded as replacing that value
  with `m`.
* Go errors become the inductive `GoError`, with one constructor per error
  shape the handlers distinguish (`*net.AddrError`, `fmt.Errorf` strings,
  the `ErrInvalidXForwardedFor` sentinel, `jwt.ErrSignatureInvalid`,
  `*UnknownIssuerError`, and `*jwt.ValidationError` wrapping an inner
  error).
* The `net` stdlib functions used (`SplitHostPort`, `ParseIP`,
  `IPNet.Contains`) are modelled for the dotted-quad IPv4, non-bracketed
  `host:port` forms the handlers exercise.
* The third-party `jwt.Parse` is modelled by its documented contract:
  decoding of the compact serialization is an environment
  `String → Option TokenData`, and `jwtParse` performs the keyfunc call,
  signature check and claims validation in the library's order.
-/

deriving instance DecidableEq for Except

/-- Decoded Upload-Metadata: a Go `map[string]string` as an association
list with unique keys. -/
abbrev Metadata := List (String × String)

/-- Go map read: value for the key, or the zero value `""` when absent. -/
def metaGet : Metadata → String → String
  | [], _ => ""
  | (k0, v0) :: rest, k => if k0 == k then v0 else metaGet rest k

/-- Go map membership test for a key. -/
def metaHasKey : Metadata → String → Bool
  | [], _ => false
  | (k0, _) :: rest, k => k0 == k || metaHasKey rest k

/-- Go map write: replace the binding for the key, or add one. -/
def metaSet : Metadata → String → String → Metadata
  | [], k, v => [(k, v)]
  | (k0, v0) :: rest, k, v =>
    if k0 == k then (k, v) :: rest else (k0, v0) :: metaSet rest k v

/-- Association-list lookup (Go map read returning presence). -/
def alistLookup {α : Type} : List (String × α) → String → Option α
  | [], _ => none
  | (k0, a) :: rest, k => if k0 == k then some a else alistLookup rest k

/-- Split at a one-character separator (Go `strings.Split` with a
one-character separator), on the character list of a string. -/
def splitOnChar (sep : Char) : List Char → List (List Char)
  | [] => [[]]
  | c :: rest =>
    let r := splitOnChar sep rest
    if c == sep then [] :: r
    else (c :: r.headD []) :: r.tail

/-- Model of Go `strings.TrimSpace`: drop whitespace from both ends. -/
def trimChars (cs : List Char) : List Char :=
  ((cs.dropWhile Char.isWhitespace).reverse.dropWhile Char.isWhitespace).reverse

/-- Decimal value of a digit list. -/
def digitsToNat (cs : List Char) : Nat :=
  cs.foldl (fun n c => n * 10 + (c.toNat - 48)) 0

/-- One dotted-quad octet, as Go `net.ParseIP` accepts it: one to three
digits, no leading zero, value at most 255. -/
def parseIPv4Octet (cs : List Char) : Option Nat :=
  if cs.length == 0 || cs.length > 3 then none
  else if cs.length > 1 && cs.headD ' ' == '0' then none
  else if cs.all Char.isDigit then
    let n := digitsToNat cs
    if n ≤ 255 then some n else none
  else none

/-- Model of Go `net.ParseIP`, restricted to dotted-quad IPv4 (the only
address form the verified properties exercise); the result is the 32-bit
value of the address. `none` models the `nil` result. -/
def parseIP (s : String) : Option Nat :=
  match (splitOnChar '.' s.toList).mapM parseIPv4Octet with
  | some [a, b, c, d] => some (((a * 256 + b) * 256 + c) * 256 + d)
  | _ => none

/-- Model of Go `net.IP.String` on an IPv4 value: the dotted quad. -/
def ipToString (ip : Nat) : String :=
  toString (ip / 2 ^ 24 % 256) ++ "." ++ toString (ip / 2 ^ 16 % 256) ++ "." ++
    toString (ip / 2 ^ 8 % 256) ++ "." ++ toString (ip % 256)

/-- A CIDR block from the `TrustedReverseProxyRanges` configuration:
a base address and a prefix length. -/
structure IPNet where
  base : Nat
  maskBits : Nat
deriving DecidableEq

/-- Model of Go `net.IPNet.Contains`: both addresses agree on the first
`maskBits` bits. A `nil` IP (failed parse) is contained in no range. -/
def ipnetContains (n : IPNet) (ip : Option Nat) : Bool :=
  match ip with
  | none => false
  | some ip => ip / 2 ^ (32 - n.maskBits) == n.base / 2 ^ (32 - n.maskBits)

/-- The trimmed first comma-separated token of a forwarded-address
header: `strings.TrimSpace(strings.Split(forwardedFor, ",")[0])`. -/
def forwardedClientToken (fwd : String) : String :=
  String.mk (trimChars ((splitOnChar ',' fwd.toList).headD []))

/-- Model of Go `net.SplitHostPort`, restricted to the non-bracketed
`host:port` form; the error strings are the `AddrError.Err` values. -/
def splitHostPort (s : String) : Except String (String × String) :=
  match splitOnChar ':' s.toList with
  | [host, port] => Except.ok (String.mk host, String.mk port)
  | [_] => Except.error "missing port in address"
  | _ => Except.error "too many colons in address"

/-- The server configuration fields the handlers read: the trusted
reverse-proxy CIDR ranges and the issuer-to-secret registry. -/
structure Config where
  trustedReverseProxyRanges : List IPNet
  jwtSecretsByIssuer : List (String × String)

/-- The parts of the incoming HTTP request the handlers read and write:
`RemoteAddr`, the `X-Forwarded-For` header (`""` = absent) and the
Upload-Metadata header represented by its decoded `Metadata`. -/
structure Request where
  remoteAddr : String
  xForwardedFor : String
  uploadMetadata : Metadata
deriving DecidableEq

/-- A JSON claim value as the handlers distinguish them: a string, or
anything else (`other` stands for every non-string JSON value). -/
inductive JValue where
  | str (s : String)
  | other
deriving DecidableEq

/-- The decoded, not yet verified content of a JWT compact serialization,
as `jwt.ParseUnverified` produces it: the declared algorithm (and whether
it is in the HMAC family), the claims map, the signature checked against
a candidate secret, and the outcome of the registered claims validation
(`none` = valid, `some msg` = the validation error message). -/
structure TokenData where
  algIsHMAC : Bool
  alg : String
  claims : List (String × JValue)
  sigValidFor : String → Bool
  claimsError : Option String

/-- The Go error values the handlers construct and inspect. -/
inductive GoError where
  /-- A `*net.AddrError` from `net.SplitHostPort`. -/
  | addrError (msg : String)
  /-- A plain `fmt.Errorf` / `errors.New` error. -/
  | errorString (msg : String)
  /-- The `ErrInvalidXForwardedFor` sentinel. -/
  | errInvalidXForwardedFor
  /-- The `jwt.ErrSignatureInvalid` sentinel. -/
  | errSignatureInvalid
  /-- A `*UnknownIssuerError` carrying the unconfigured issuer. -/
  | unknownIssuer (issuer : String)
  /-- A `*jwt.ValidationError` wrapping its `Inner` error. -/
  | jwtValidation (inner : GoError)
  /-- A Go runtime panic (used for the unreachable failed interface
  conversion in `processJwt`). -/
  | runtimePanic (msg : String)
deriving DecidableEq

/-- The `Error()` message of a `GoError` (a `ValidationError` with a
non-nil `Inner` reports the inner message). -/
def GoError.message : GoError → String
  | .addrError m => m
  | .errorString m => m
  | .errInvalidXForwardedFor => "Failed to parse IP from X-Forwarded-For header"
  | .errSignatureInvalid => "signature is invalid"
  | .unknownIssuer i => "Issuer \"" ++ i ++ "\" not configured"
  | .jwtValidation inner => inner.message
  | .runtimePanic m => m

/-- `isFatalJwtError`: every error is fatal except a
`*jwt.ValidationError` whose `Inner` is a `*UnknownIssuerError`. -/
def isFatalJwtError : GoError → Bool
  | .jwtValidation (.unknownIssuer _) => false
  | _ => true

/-- The reserved metadata key `RemoteIP`. -/
def remoteIPKey : String := "RemoteIP"

/-- `remoteIPisTrusted`: membership of the remote IP in any configured
trusted reverse-proxy range. -/
def remoteIPisTrusted (cfg : Config) (remoteIP : Option Nat) : Bool :=
  cfg.trustedReverseProxyRanges.any (fun n => ipnetContains n remoteIP)

/-- `getDirectOrForwardedRemoteIP`: split `RemoteAddr` into host and port
(failure is returned as the `*net.AddrError`); when an `X-Forwarded-For`
header is present and the direct host lies in a trusted range, parse the
trimmed first comma-separated token (failure is the
`ErrInvalidXForwardedFor` sentinel) and return its canonical string;
otherwise return the direct host. The `Bool` of the result records
whether the untrusted-override warning was logged (the Go code reaches
the shared `return remoteIP` after logging; the fall-through is embedded
as the two `.ok (remoteIP, _)` arms). -/
def getDirectOrForwardedRemoteIP (cfg : Config) (req : Request) :
    Except GoError (String × Bool) :=
  match splitHostPort req.remoteAddr with
  | Except.error m => Except.error (GoError.addrError m)
  | Except.ok (remoteIP, _) =>
    if req.xForwardedFor = "" then Except.ok (remoteIP, false)
    else if remoteIPisTrusted cfg (parseIP remoteIP) then
      match parseIP (forwardedClientToken req.xForwardedFor) with
      | none => Except.error GoError.errInvalidXForwardedFor
      | some forwardedForIP => Except.ok (ipToString forwardedForIP, false)
    else Except.ok (remoteIP, true)

/-- `addRemoteIPToMetadata`: reject when the client supplied the reserved
`RemoteIP` key; otherwise resolve the originating IP and write it into
the metadata (re-serializing the header). The `Bool` of the result
carries the resolver's warning flag. -/
def addRemoteIPToMetadata (cfg : Config) (req : Request) :
    Except GoError (Request × Bool) :=
  if metaHasKey req.uploadMetadata remoteIPKey then
    Except.error (GoError.errorString
      ("Metadata field " ++ remoteIPKey ++ " cannot be set by client"))
  else
    match getDirectOrForwardedRemoteIP cfg req with
    | Except.error e => Except.error e
    | Except.ok (remoteIP, warned) =>
      Except.ok
        ({ req with uploadMetadata := metaSet req.uploadMetadata remoteIPKey remoteIP },
          warned)

/-- `getSecretForToken` (the keyfunc passed to `jwt.Parse`): reject a
non-HMAC signing method, require a string `iss` claim, and look the
issuer up in the registry; absence is the `*UnknownIssuerError`. -/
def getSecretForToken (cfg : Config) (token : TokenData) : Except GoError String :=
  if token.algIsHMAC = false then
    Except.error (GoError.errorString ("Unexpected signing method: " ++ token.alg))
  else
    match alistLookup token.claims "iss" with
    | none => Except.error (GoError.errorString "Issuer field iss missing from JWT")
    | some (JValue.str issuerStr) =>
      match alistLookup cfg.jwtSecretsByIssuer issuerStr with
      | none => Except.error (GoError.unknownIssuer issuerStr)
      | some secret => Except.ok secret
    | some JValue.other =>
      Except.error (GoError.errorString "Failed to coerce issuer to string")

/-- Model of the third-party `jwt.Parse` applied to an already decoded
token: call the keyfunc (an error is wrapped in a `*jwt.ValidationError`),
then verify the signature (failure sets `Inner` to
`jwt.ErrSignatureInvalid`, overriding a claims-validation error), then
check the registered claims. -/
def jwtParse (keyfunc : TokenData → Except GoError String) (tok : TokenData) :
    Except GoError TokenData :=
  match keyfunc tok with
  | Except.error e => Except.error (GoError.jwtValidation e)
  | Except.ok key =>
    if tok.sigValidFor key = false then
      Except.error (GoError.jwtValidation GoError.errSignatureInvalid)
    else
      match tok.claimsError with
      | some m => Except.error (GoError.jwtValidation (GoError.errorString m))
      | none => Except.ok tok

/-- `processJwt`: scan the metadata keys with the Go `switch` — the
`case "account":` arm is empty (Go cases do not fall through), so only a
client-supplied `issuer` key is rejected; read `extjwt` (empty means no
token, not an error); parse and verify it (`env` models the compact-
serialization decoding; a decode failure is the malformed-token
validation error). On success the Go code asserts `iss` to a string
(`claims["iss"].(string)` — a panic if it were not, unreachable because
the keyfunc succeeded) and injects `issuer` and `account` only when the
`account` claim is a string. -/
def processJwt (cfg : Config) (env : String → Option TokenData) (req : Request) :
    Except GoError Request :=
  if metaHasKey req.uploadMetadata "issuer" then
    Except.error (GoError.errorString "Metadata field \"issuer\" cannot be set by client")
  else if metaGet req.uploadMetadata "extjwt" = "" then
    Except.ok req
  else
    match env (metaGet req.uploadMetadata "extjwt") with
    | none =>
      Except.error (GoError.jwtValidation
        (GoError.errorString "token contains an invalid number of segments"))
    | some parsed =>
      match jwtParse (getSecretForToken cfg) parsed with
      | Except.error e => Except.error e
      | Except.ok token =>
        match alistLookup token.claims "iss" with
        | some (JValue.str issuer) =>
          match alistLookup token.claims "account" with
          | some (JValue.str account) =>
            Except.ok
              { req with
                uploadMetadata :=
                  metaSet (metaSet req.uploadMetadata "issuer" issuer) "account" account }
          | _ => Except.ok req
        | _ => Except.error (GoError.runtimePanic "interface conversion: iss claim is not a string")

/-- The observable outcome of the `postFile` handler: an abort with an
HTTP status (and the JSON body when one is written), or the request as
forwarded to `handler.PostFile`, together with which warnings were
logged (the resolver's untrusted-override warning and the non-fatal
JWT-processing warning). -/
inductive Outcome where
  | aborted (status : Nat) (body : Option String) (req : Request)
  | posted (req : Request) (warnedUntrusted : Bool) (jwtWarning : Bool)
deriving DecidableEq

/-- The HTTP status of an outcome, when it aborted. -/
def Outcome.statusOf : Outcome → Option Nat
  | .aborted s _ _ => some s
  | .posted _ _ _ => none

/-- `postFile`: run `addRemoteIPToMetadata` (a `*net.AddrError` aborts
500, any other error aborts 406); then `processJwt` (a fatal error whose
`Inner` is `jwt.ErrSignatureInvalid` aborts 401 with the configured-
secret hint, any other fatal error aborts 400, a non-fatal error is
logged as a warning); finally forward the request to the upload engine. -/
def postFile (cfg : Config) (env : String → Option TokenData) (req : Request) :
    Outcome :=
  match addRemoteIPToMetadata cfg req with
  | Except.error (GoError.addrError _) => Outcome.aborted 500 none req
  | Except.error _ => Outcome.aborted 406 none req
  | Except.ok (req1, warned) =>
    match processJwt cfg env req1 with
    | Except.error e =>
      if isFatalJwtError e then
        match e with
        | GoError.jwtValidation GoError.errSignatureInvalid =>
          Outcome.aborted 401
            (some ("Failed to process EXTJWT: " ++
              (GoError.jwtValidation GoError.errSignatureInvalid).message ++
              ". Configured secret may be incorrect."))
            req1
        | _ => Outcome.aborted 400 none req1
      else Outcome.posted req1 warned true
    | Except.ok req2 => Outcome.posted req2 warned false

/-- The tusd lifecycle hook types the event broadcaster delivers. -/
inductive HookType where
  | postCreate
  | postReceive
  | postFinish
  | postTerminate
deriving DecidableEq

/-- The part of `tusd.FileInfo` the recorder reads: the upload ID and the
metadata snapshot. -/
structure FileInfo where
  id : String
  metaData : Metadata
deriving DecidableEq

/-- A lifecycle event as delivered on the broadcaster channel. -/
structure TusEvent where
  hook : HookType
  info : FileInfo
deriving DecidableEq

/-- A persistence write issued by the recorder: the SQL `UPDATE uploads
SET uploader_ip = ? WHERE id = ?` with its two parameters. -/
structure DBWrite where
  uploaderIP : String
  id : String
deriving DecidableEq

/-- The reaction of `ipRecorder` to one event: on `HookPostCreate` it
reads `MetaData["RemoteIP"]` (a Go map read, `""` when absent) and issues
the update for the event's upload ID; on every other hook type it issues
nothing. -/
def ipRecorderStep (event : TusEvent) : List DBWrite :=
  if event.hook = HookType.postCreate then
    [{ uploaderIP := metaGet event.info.metaData "RemoteIP", id := event.info.id }]
  else []

/-- The writes `ipRecorder` issues over the sequence of events received
on its channel before it closes. -/
def ipRecorderWrites (evts : List TusEvent) : List DBWrite :=
  (evts.map ipRecorderStep).flatten

/-! ### Concrete configurations, tokens and requests used by the witnesses -/

/-- A sample configuration: trusted range `10.0.0.0/8`, one issuer. -/
def sampleCfg : Config :=
  { trustedReverseProxyRanges := [{ base := 10 * 2 ^ 24, maskBits := 8 }],
    jwtSecretsByIssuer := [("irc.example.com", "sharedsecret")] }

/-- A token environment with no decodable tokens. -/
def emptyEnv : String → Option TokenData := fun _ => none

/-- A creation request whose client metadata carries the reserved
`RemoteIP` key. -/
def c1req : Request :=
  { remoteAddr := "1.2.3.4:5678", xForwardedFor := "",
    uploadMetadata := [("RemoteIP", "1.1.1.1")] }

/-- A creation request whose client metadata carries the reserved
`account` key. -/
def c2req : Request :=
  { remoteAddr := "1.2.3.4:5678", xForwardedFor := "",
    uploadMetadata := [("account", "someoneelse")] }

/-- A request from a trusted proxy forwarding a chain of two addresses. -/
def c3req : Request :=
  { remoteAddr := "10.0.0.1:5000", xForwardedFor := "9.9.9.9, 8.8.8.8",
    uploadMetadata := [] }

/-- A request from an untrusted peer that tries to forward an address. -/
def c4req : Request :=
  { remoteAddr := "1.2.3.4:80", xForwardedFor := "9.9.9.9",
    uploadMetadata := [] }

/-- A token declaring a non-HMAC signing algorithm. -/
def tok5 : TokenData :=
  { algIsHMAC := false, alg := "RS256",
    claims := [("iss", JValue.str "irc.example.com")],
    sigValidFor := fun _ => false, claimsError := none }

/-- Environment decoding the compact serialization `"t5"` to `tok5`. -/
def env5 : String → Option TokenData := fun s => if s == "t5" then some tok5 else none

/-- A creation request carrying the token `"t5"` in its metadata. -/
def req5 : Request :=
  { remoteAddr := "1.2.3.4:5678", xForwardedFor := "",
    uploadMetadata := [("extjwt", "t5")] }

/-- A validly signed token naming an issuer absent from the registry. -/
def tok6 : TokenData :=
  { algIsHMAC := true, alg := "HS256",
    claims := [("iss", JValue.str "unknown.example.org"), ("account", JValue.str "alice")],
    sigValidFor := fun _ => true, claimsError := none }

/-- Environment decoding the compact serialization `"t6"` to `tok6`. -/
def env6 : String → Option TokenData := fun s => if s == "t6" then some tok6 else none

/-- A creation request carrying the token `"t6"` in its metadata. -/
def req6 : Request :=
  { remoteAddr := "1.2.3.4:5678", xForwardedFor := "",
    uploadMetadata := [("extjwt", "t6")] }

/-- A token for a registered issuer whose signature verifies under no
secret (a tampered signature). -/
def tok7 : TokenData :=
  { algIsHMAC := true, alg := "HS256",
    claims := [("iss", JValue.str "irc.example.com"), ("account", JValue.str "alice")],
    sigValidFor := fun _ => false, claimsError := none }

/-- Environment decoding the compact serialization `"t7"` to `tok7`. -/
def env7 : String → Option TokenData := fun s => if s == "t7" then some tok7 else none

/-- A creation request carrying the token `"t7"` in its metadata. -/
def req7 : Request :=
  { remoteAddr := "1.2.3.4:5678", xForwardedFor := "",
    uploadMetadata := [("extjwt", "t7")] }

/-- A valid token for a registered issuer with no `account` claim. -/
def tok9 : TokenData :=
  { algIsHMAC := true, alg := "HS256",
    claims := [("iss", JValue.str "irc.example.com")],
    sigValidFor := fun s => s == "sharedsecret", claimsError := none }

/-- Environment decoding the compact serialization `"t9"` to `tok9`. -/
def env9 : String → Option TokenData := fun s => if s == "t9" then some tok9 else none

/-- A creation request carrying the token `"t9"` in its metadata. -/
def req9 : Request :=
  { remoteAddr := "1.2.3.4:5678", xForwardedFor := "",
    uploadMetadata := [("extjwt", "t9")] }

/-! ### Helper lemmas -/

/-- Writing one key leaves the values of other keys unchanged. -/
theorem metaGet_metaSet_ne (m : Metadata) (k v k' : String) (h : k' ≠ k) :
    metaGet (metaSet m k v) k' = metaGet m k' := by
  induction m with
  | nil =>
    simp only [metaSet, metaGet]
    rw [if_neg (by simpa using Ne.symm h)]
  | cons p rest ih =>
    obtain ⟨k0, v0⟩ := p
    by_cases hk : k0 = k
    · subst hk
      simp only [metaSet, metaGet, beq_self_eq_true, if_true]
      rw [if_neg (by simpa using Ne.symm h), if_neg (by simpa using Ne.symm h)]
    · simp only [metaSet, metaGet]
      rw [if_neg (by simpa using hk)]
      by_cases hk' : k0 = k'
      · simp only [metaGet, hk', beq_self_eq_true, if_true]
      · simp only [metaGet]
        rw [if_neg (by simpa using hk'), if_neg (by simpa using hk')]
        exact ih

/-- Writing one key leaves the presence of other keys unchanged. -/
theorem metaHasKey_metaSet_ne (m : Metadata) (k v k' : String) (h : k' ≠ k) :
    metaHasKey (metaSet m k v) k' = metaHasKey m k' := by
  induction m with
  | nil =>
    simp only [metaSet, metaHasKey, Bool.or_false]
    simp [Ne.symm h]
  | cons p rest ih =>
    obtain ⟨k0, v0⟩ := p
    by_cases hk : k0 = k
    · subst hk
      simp only [metaSet, metaHasKey, beq_self_eq_true, if_true]
    · simp only [metaSet, metaHasKey]
      rw [if_neg (by simpa using hk)]
      simp only [metaHasKey, ih]

/-- A Go map read of an absent key yields the zero value `""`. -/
theorem metaGet_of_not_hasKey (m : Metadata) (k : String)
    (h : metaHasKey m k = false) : metaGet m k = "" := by
  induction m with
  | nil => rfl
  | cons p rest ih =>
    obtain ⟨k0, v0⟩ := p
    simp only [metaHasKey, Bool.or_eq_false_iff] at h
    simp only [metaGet, h.1, if_false]
    exact ih h.2

/-- `addRemoteIPToMetadata` rejects a client-supplied `RemoteIP` before
any mutation. -/
theorem addRemoteIPToMetadata_reserved (cfg : Config) (req : Request)
    (h : metaHasKey req.uploadMetadata remoteIPKey = true) :
    addRemoteIPToMetadata cfg req =
      Except.error (GoError.errorString
        ("Metadata field " ++ remoteIPKey ++ " cannot be set by client")) := by
  simp [addRemoteIPToMetadata, h]

/-- `addRemoteIPToMetadata` propagates a resolver error. -/
theorem addRemoteIPToMetadata_err (cfg : Config) (req : Request) (e : GoError)
    (hk : metaHasKey req.uploadMetadata remoteIPKey = false)
    (hr : getDirectOrForwardedRemoteIP cfg req = Except.error e) :
    addRemoteIPToMetadata cfg req = Except.error e := by
  simp [addRemoteIPToMetadata, hk, hr]

/-- `addRemoteIPToMetadata` on success writes the resolved IP into the
metadata. -/
theorem addRemoteIPToMetadata_ok (cfg : Config) (req : Request) (ip : String) (w : Bool)
    (hk : metaHasKey req.uploadMetadata remoteIPKey = false)
    (hr : getDirectOrForwardedRemoteIP cfg req = Except.ok (ip, w)) :
    addRemoteIPToMetadata cfg req =
      Except.ok
        ({ req with uploadMetadata := metaSet req.uploadMetadata remoteIPKey ip }, w) := by
  simp [addRemoteIPToMetadata, hk, hr]

/-- A request with a client-supplied `RemoteIP` aborts with 406 and the
request unchanged. -/
theorem postFile_reserved (cfg : Config) (env : String → Option TokenData)
    (req : Request) (h : metaHasKey req.uploadMetadata remoteIPKey = true) :
    postFile cfg env req = Outcome.aborted 406 none req := by
  simp [postFile, addRemoteIPToMetadata_reserved cfg req h]

/-! ### Claims -/

/-- Claim C1, counterexample: at this concrete upload-creation request
whose client metadata carries `RemoteIP=1.1.1.1`, the middleware aborts
with HTTP status 406, not 400 as claimed (the reserved-field error flows
through the generic non-`AddrError` abort branch of `postFile`). -/
theorem c1_counterexample :
    Outcome.statusOf (postFile sampleCfg emptyEnv c1req) = some 406 ∧
    Outcome.statusOf (postFile sampleCfg emptyEnv c1req) ≠ some 400 := by
  decide

/-- Claim C1 (amended): for every upload-creation request whose decoded
Upload-Metadata contains a client-supplied `RemoteIP` key, the middleware
rejects the request with HTTP status 406 (not 400), and the request's
Upload-Metadata header is not mutated: the abort carries the request
unchanged and nothing is forwarded to the upload engine. -/
theorem c1_reservedRemoteIP_rejected_406_unmutated
    (cfg : Config) (env : String → Option TokenData) (req : Request)
    (h : metaHasKey req.uploadMetadata remoteIPKey = true) :
    postFile cfg env req = Outcome.aborted 406 none req :=
  postFile_reserved cfg env req h

/-- Witness for C1 at the concrete request `c1req`. -/
theorem c1_witness :
    postFile sampleCfg emptyEnv c1req = Outcome.aborted 406 none c1req :=
  c1_reservedRemoteIP_rejected_406_unmutated sampleCfg emptyEnv c1req (by decide)

/-- Claim C2 fails on the code for the `account` key: the Go `switch` in
`processJwt` has an empty `case "account":` arm that does not fall
through to the `case "issuer":` rejection, so at this concrete request
whose metadata carries a client-supplied `account` the middleware does
not reject with 400 — it forwards the upload to the engine with the
client's `account` value still present in the metadata. -/
theorem c2_clientAccount_not_rejected :
    postFile sampleCfg emptyEnv c2req =
      Outcome.posted
        { remoteAddr := "1.2.3.4:5678", xForwardedFor := "",
          uploadMetadata := [("account", "someoneelse"), ("RemoteIP", "1.2.3.4")] }
        false false := by
  decide

/-- Claim C3: for a request with a non-empty forwarded header whose
direct peer host lies in a trusted range, the resolver returns the IP
parsed from the trimmed first comma-separated token of the header; if
that token does not parse as an IP, the resolver fails with the
`ErrInvalidXForwardedFor` sentinel and `postFile` rejects the request
with HTTP status 406. -/
theorem c3_trustedProxy_forwarded_resolution
    (cfg : Config) (env : String → Option TokenData) (req : Request)
    (host port : String)
    (hf : req.xForwardedFor ≠ "")
    (hs : splitHostPort req.remoteAddr = Except.ok (host, port))
    (ht : remoteIPisTrusted cfg (parseIP host) = true) :
    (∀ ip : Nat,
      parseIP (forwardedClientToken req.xForwardedFor) = some ip →
      getDirectOrForwardedRemoteIP cfg req = Except.ok (ipToString ip, false)) ∧
    (parseIP (forwardedClientToken req.xForwardedFor) = none →
      getDirectOrForwardedRemoteIP cfg req =
        Except.error GoError.errInvalidXForwardedFor ∧
      postFile cfg env req = Outcome.aborted 406 none req) := by
  constructor
  · intro ip hp
    simp [getDirectOrForwardedRemoteIP, hs, hf, ht, hp]
  · intro hp
    have hres : getDirectOrForwardedRemoteIP cfg req =
        Except.error GoError.errInvalidXForwardedFor := by
      simp [getDirectOrForwardedRemoteIP, hs, hf, ht, hp]
    refine ⟨hres, ?_⟩
    by_cases hk : metaHasKey req.uploadMetadata remoteIPKey = true
    · exact postFile_reserved cfg env req hk
    · have hadd := addRemoteIPToMetadata_err cfg req _
        (by simpa using hk) hres
      simp [postFile, hadd]

/-- Witness for C3 at the concrete request `c3req` (trusted direct peer
`10.0.0.1`, forwarded chain `9.9.9.9, 8.8.8.8`): the resolver yields the
first forwarded address. -/
theorem c3_witness :
    getDirectOrForwardedRemoteIP sampleCfg c3req = Except.ok ("9.9.9.9", false) := by
  have h := (c3_trustedProxy_forwarded_resolution sampleCfg emptyEnv c3req
    "10.0.0.1" "5000" (by decide) (by decide) (by decide)).1 151587081 (by decide)
  have he : ipToString 151587081 = "9.9.9.9" := by decide
  rw [he] at h
  exact h

/-- Claim C4: when the direct peer host is not in any trusted range, a
non-empty forwarded header is ignored entirely — for every header
content the resolver returns the direct host, with the
untrusted-override warning logged. -/
theorem c4_untrustedProxy_header_ignored
    (cfg : Config) (req : Request) (host port : String)
    (hs : splitHostPort req.remoteAddr = Except.ok (host, port))
    (ht : remoteIPisTrusted cfg (parseIP host) = false) :
    ∀ fwd : String, fwd ≠ "" →
      getDirectOrForwardedRemoteIP cfg { req with xForwardedFor := fwd } =
        Except.ok (host, true) := by
  intro fwd hfwd
  simp [getDirectOrForwardedRemoteIP, hs, hfwd, ht]

/-- Witness for C4 at the concrete request `c4req` (untrusted direct
peer `1.2.3.4`, forwarded `9.9.9.9`): the direct host is returned and
the warning logged. -/
theorem c4_witness :
    getDirectOrForwardedRemoteIP sampleCfg c4req = Except.ok ("1.2.3.4", true) :=
  c4_untrustedProxy_header_ignored sampleCfg c4req "1.2.3.4" "80"
    (by decide) (by decide) "9.9.9.9" (by decide)

/-- Claim C5: a bearer token whose declared signing algorithm is not in
the HMAC family makes claim verification fail with the unexpected-
signing-method error, and that error is fatal: whatever the token's
other contents, `postFile` rejects the upload-creation request with
HTTP status 400. -/
theorem c5_nonHmac_rejected_400
    (cfg : Config) (env : String → Option TokenData) (req : Request)
    (ip : String) (w : Bool) (ts : String) (tok : TokenData)
    (hk : metaHasKey req.uploadMetadata remoteIPKey = false)
    (hi : metaHasKey req.uploadMetadata "issuer" = false)
    (hr : getDirectOrForwardedRemoteIP cfg req = Except.ok (ip, w))
    (he : metaGet req.uploadMetadata "extjwt" = ts)
    (hts : ts ≠ "")
    (hd : env ts = some tok)
    (halg : tok.algIsHMAC = false) :
    processJwt cfg env
        { req with uploadMetadata := metaSet req.uploadMetadata remoteIPKey ip } =
      Except.error (GoError.jwtValidation
        (GoError.errorString ("Unexpected signing method: " ++ tok.alg))) ∧
    postFile cfg env req =
      Outcome.aborted 400 none
        { req with uploadMetadata := metaSet req.uploadMetadata remoteIPKey ip } := by
  have hi1 : metaHasKey (metaSet req.uploadMetadata remoteIPKey ip) "issuer" = false := by
    rw [metaHasKey_metaSet_ne _ _ _ _ (by decide)]
    exact hi
  have he1 : metaGet (metaSet req.uploadMetadata remoteIPKey ip) "extjwt" = ts := by
    rw [metaGet_metaSet_ne _ _ _ _ (by decide)]
    exact he
  have hpj : processJwt cfg env
      { req with uploadMetadata := metaSet req.uploadMetadata remoteIPKey ip } =
      Except.error (GoError.jwtValidation
        (GoError.errorString ("Unexpected signing method: " ++ tok.alg))) := by
    simp [processJwt, hi1, he1, hts, hd, jwtParse, getSecretForToken, halg]
  refine ⟨hpj, ?_⟩
  have hadd := addRemoteIPToMetadata_ok cfg req ip w hk hr
  simp [postFile, hadd, hpj, isFatalJwtError]

/-- Witness for C5: the non-HMAC token `tok5` aborts the request with
status 400. -/
theorem c5_witness :
    postFile sampleCfg env5 req5 =
      Outcome.aborted 400 none
        { remoteAddr := "1.2.3.4:5678", xForwardedFor := "",
          uploadMetadata := [("extjwt", "t5"), ("RemoteIP", "1.2.3.4")] } :=
  (c5_nonHmac_rejected_400 sampleCfg env5 req5 "1.2.3.4" false "t5" tok5
    (by decide) (by decide) (by decide) (by decide) (by decide) rfl rfl).2

/-- Claim C6: a bearer token naming an issuer absent from the registry
yields the non-fatal unknown-issuer condition: `processJwt` returns the
`UnknownIssuerError` wrapped in a validation error, and `postFile`
proceeds to forward the request (logging the warning, modelled by the
`jwtWarning` flag) with the metadata exactly as the IP-injection step
left it — no issuer or account injected. -/
theorem c6_unknownIssuer_proceeds_unchanged
    (cfg : Config) (env : String → Option TokenData) (req : Request)
    (ip : String) (w : Bool) (ts : String) (tok : TokenData) (issuer : String)
    (hk : metaHasKey req.uploadMetadata remoteIPKey = false)
    (hi : metaHasKey req.uploadMetadata "issuer" = false)
    (hr : getDirectOrForwardedRemoteIP cfg req = Except.ok (ip, w))
    (he : metaGet req.uploadMetadata "extjwt" = ts)
    (hts : ts ≠ "")
    (hd : env ts = some tok)
    (halg : tok.algIsHMAC = true)
    (hiss : alistLookup tok.claims "iss" = some (JValue.str issuer))
    (hsec : alistLookup cfg.jwtSecretsByIssuer issuer = none) :
    processJwt cfg env
        { req with uploadMetadata := metaSet req.uploadMetadata remoteIPKey ip } =
      Except.error (GoError.jwtValidation (GoError.unknownIssuer issuer)) ∧
    postFile cfg env req =
      Outcome.posted
        { req with uploadMetadata := metaSet req.uploadMetadata remoteIPKey ip }
        w true := by
  have hi1 : metaHasKey (metaSet req.uploadMetadata remoteIPKey ip) "issuer" = false := by
    rw [metaHasKey_metaSet_ne _ _ _ _ (by decide)]
    exact hi
  have he1 : metaGet (metaSet req.uploadMetadata remoteIPKey ip) "extjwt" = ts := by
    rw [metaGet_metaSet_ne _ _ _ _ (by decide)]
    exact he
  have hpj : processJwt cfg env
      { req with uploadMetadata := metaSet req.uploadMetadata remoteIPKey ip } =
      Except.error (GoError.jwtValidation (GoError.unknownIssuer issuer)) := by
    simp [processJwt, hi1, he1, hts, hd, jwtParse, getSecretForToken, halg, hiss, hsec]
  refine ⟨hpj, ?_⟩
  have hadd := addRemoteIPToMetadata_ok cfg req ip w hk hr
  simp [postFile, hadd, hpj, isFatalJwtError]

/-- Witness for C6: the unknown-issuer token `tok6` lets the request
proceed with metadata unchanged by the claim-processing step. -/
theorem c6_witness :
    postFile sampleCfg env6 req6 =
      Outcome.posted
        { remoteAddr := "1.2.3.4:5678", xForwardedFor := "",
          uploadMetadata := [("extjwt", "t6"), ("RemoteIP", "1.2.3.4")] }
        false true :=
  (c6_unknownIssuer_proceeds_unchanged sampleCfg env6 req6 "1.2.3.4" false "t6" tok6
    "unknown.example.org" (by decide) (by decide) (by decide) (by decide) (by decide)
    rfl rfl rfl rfl).2

/-- Claim C7: a bearer token naming a registered issuer whose signature
does not verify against that issuer's secret makes `postFile` reject the
request with HTTP status 401 and the body hinting that the configured
secret may be incorrect. -/
theorem c7_badSignature_401_hint
    (cfg : Config) (env : String → Option TokenData) (req : Request)
    (ip : String) (w : Bool) (ts : String) (tok : TokenData)
    (issuer secret : String)
    (hk : metaHasKey req.uploadMetadata remoteIPKey = false)
    (hi : metaHasKey req.uploadMetadata "issuer" = false)
    (hr : getDirectOrForwardedRemoteIP cfg req = Except.ok (ip, w))
    (he : metaGet req.uploadMetadata "extjwt" = ts)
    (hts : ts ≠ "")
    (hd : env ts = some tok)
    (halg : tok.algIsHMAC = true)
    (hiss : alistLookup tok.claims "iss" = some (JValue.str issuer))
    (hsec : alistLookup cfg.jwtSecretsByIssuer issuer = some secret)
    (hsig : tok.sigValidFor secret = false) :
    postFile cfg env req =
      Outcome.aborted 401
        (some "Failed to process EXTJWT: signature is invalid. Configured secret may be incorrect.")
        { req with uploadMetadata := metaSet req.uploadMetadata remoteIPKey ip } := by
  have hi1 : metaHasKey (metaSet req.uploadMetadata remoteIPKey ip) "issuer" = false := by
    rw [metaHasKey_metaSet_ne _ _ _ _ (by decide)]
    exact hi
  have he1 : metaGet (metaSet req.uploadMetadata remoteIPKey ip) "extjwt" = ts := by
    rw [metaGet_metaSet_ne _ _ _ _ (by decide)]
    exact he
  have hpj : processJwt cfg env
      { req with uploadMetadata := metaSet req.uploadMetadata remoteIPKey ip } =
      Except.error (GoError.jwtValidation GoError.errSignatureInvalid) := by
    simp [processJwt, hi1, he1, hts, hd, jwtParse, getSecretForToken, halg, hiss, hsec, hsig]
  have hadd := addRemoteIPToMetadata_ok cfg req ip w hk hr
  have hmsg : ("Failed to process EXTJWT: " ++
      (GoError.jwtValidation GoError.errSignatureInvalid).message ++
      ". Configured secret may be incorrect.") =
      "Failed to process EXTJWT: signature is invalid. Configured secret may be incorrect." := by
    decide
  simp [postFile, hadd, hpj, isFatalJwtError, hmsg]

/-- Witness for C7: the tampered-signature token `tok7` for the
registered issuer aborts the request with status 401 and the
configured-secret hint. -/
theorem c7_witness :
    postFile sampleCfg env7 req7 =
      Outcome.aborted 401
        (some "Failed to process EXTJWT: signature is invalid. Configured secret may be incorrect.")
        { remoteAddr := "1.2.3.4:5678", xForwardedFor := "",
          uploadMetadata := [("extjwt", "t7"), ("RemoteIP", "1.2.3.4")] } :=
  c7_badSignature_401_hint sampleCfg env7 req7 "1.2.3.4" false "t7" tok7
    "irc.example.com" "sharedsecret" (by decide) (by decide) (by decide) (by decide)
    (by decide) rfl rfl rfl rfl rfl

/-- Claim C8: the recorder issues a persistence write only in reaction
to a Created (`HookPostCreate`) event — a step that writes implies the
event was a Created event, every Progress/Completed/Terminated event
produces no write, and over any event trace the writes are exactly those
of its Created events, so those other events never alter a stored IP. -/
theorem c8_recorder_writes_only_on_create :
    (∀ e : TusEvent, ipRecorderStep e ≠ [] → e.hook = HookType.postCreate) ∧
    (∀ e : TusEvent,
      e.hook = HookType.postReceive ∨ e.hook = HookType.postFinish ∨
        e.hook = HookType.postTerminate →
      ipRecorderStep e = []) ∧
    (∀ evts : List TusEvent,
      ipRecorderWrites evts =
        ipRecorderWrites (evts.filter (fun e => e.hook == HookType.postCreate))) := by
  refine ⟨?_, ?_, ?_⟩
  · intro e h
    by_contra hne
    exact h (by simp [ipRecorderStep, hne])
  · intro e h
    have hne : e.hook ≠ HookType.postCreate := by
      rcases h with h | h | h <;> simp [h]
    simp [ipRecorderStep, hne]
  · intro evts
    induction evts with
    | nil => rfl
    | cons e rest ih =>
      simp only [ipRecorderWrites] at ih
      by_cases he : e.hook = HookType.postCreate
      · have hb : (e.hook == HookType.postCreate) = true := by simp [he]
        simp only [ipRecorderWrites, List.filter_cons, hb, if_true,
          List.map_cons, List.flatten_cons]
        rw [ih]
      · have hb : (e.hook == HookType.postCreate) = false := by simp [he]
        have hstep : ipRecorderStep e = [] := by simp [ipRecorderStep, he]
        simp only [ipRecorderWrites, List.filter_cons, hb, Bool.false_eq_true,
          if_false, List.map_cons, List.flatten_cons, hstep, List.nil_append]
        rw [ih]

/-- Witness for C8: a Completed (`HookPostFinish`) event, even one whose
metadata carries a `RemoteIP`, produces no persistence write. -/
theorem c8_witness :
    ipRecorderStep
      { hook := HookType.postFinish,
        info := { id := "upload1", metaData := [("RemoteIP", "1.2.3.4")] } } = [] :=
  c8_recorder_writes_only_on_create.2.1 _ (Or.inr (Or.inl rfl))

/-- Claim C9: for a token that parses and validates (known issuer,
valid signature, valid registered claims) but whose `account` claim is
absent or not a string, `processJwt` returns success with the request —
and so its Upload-Metadata header — completely unchanged: the issuer is
never injected alone. -/
theorem c9_no_account_no_injection
    (cfg : Config) (env : String → Option TokenData) (req : Request)
    (ts : String) (tok : TokenData) (issuer secret : String)
    (hi : metaHasKey req.uploadMetadata "issuer" = false)
    (he : metaGet req.uploadMetadata "extjwt" = ts)
    (hts : ts ≠ "")
    (hd : env ts = some tok)
    (halg : tok.algIsHMAC = true)
    (hiss : alistLookup tok.claims "iss" = some (JValue.str issuer))
    (hsec : alistLookup cfg.jwtSecretsByIssuer issuer = some secret)
    (hsig : tok.sigValidFor secret = true)
    (hcl : tok.claimsError = none)
    (hacct : alistLookup tok.claims "account" = none ∨
      alistLookup tok.claims "account" = some JValue.other) :
    processJwt cfg env req = Except.ok req := by
  rcases hacct with ha | ha <;>
    simp [processJwt, hi, he, hts, hd, jwtParse, getSecretForToken,
      halg, hiss, hsec, hsig, hcl, ha]

/-- Witness for C9: the valid token `tok9` (registered issuer, valid
signature, no `account` claim) leaves the request untouched. -/
theorem c9_witness :
    processJwt sampleCfg env9 req9 = Except.ok req9 :=
  c9_no_account_no_injection sampleCfg env9 req9 "t9" tok9
    "irc.example.com" "sharedsecret" (by decide) (by decide) (by decide)
    rfl rfl rfl rfl rfl rfl (Or.inl rfl)

/-- Claim C10: a Created event whose metadata snapshot lacks the
`RemoteIP` key still produces a persistence write, storing the empty
string (the Go map zero value) as the uploader IP for that upload ID. -/
theorem c10_missing_remoteIP_writes_empty (e : TusEvent)
    (hc : e.hook = HookType.postCreate)
    (hm : metaHasKey e.info.metaData "RemoteIP" = false) :
    ipRecorderStep e = [{ uploaderIP := "", id := e.info.id }] := by
  simp [ipRecorderStep, hc, metaGet_of_not_hasKey _ _ hm]

/-- Witness for C10: a Created event with no `RemoteIP` in its metadata
writes the empty string for its upload ID. -/
theorem c10_witness :
    ipRecorderStep
      { hook := HookType.postCreate,
        info := { id := "upload1", metaData := [("filename", "a.txt")] } } =
      [{ uploaderIP := "", id := "upload1" }] :=
  c10_missing_remoteIP_writes_empty _ rfl (by decide)
